import Mathlib

/-!
Verification of the two Vencord plugins in this repository:
`ClientPinnedMessages` (a client-local message-pin feature) and
`AlwaysConnected` (a voice-channel reconnect monitor with a native
out-of-process companion). Each TypeScript function relevant to the
claims is shallowly embedded as an executable Lean definition; module
state becomes explicit state passing and `DataStore` / file contents
become fields of the state.
-/

namespace ClientPins

/-- A record of the pinned list, mirroring the `PinnedMessage` interface:
`{ id, channelId, content, author, timestamp }`. -/
structure PinnedMessage where
  id : String
  channelId : String
  content : String
  author : String
  timestamp : Nat
deriving DecidableEq, Repr

/-- The shape `togglePin` expects of its argument: `id`, `channel_id`,
`content` and `author.username` (flattened to `author_username`). -/
structure Message where
  id : String
  channel_id : String
  content : String
  author_username : String
deriving DecidableEq, Repr

/-- `isPinned(messageId)`: `pinnedMessages.some(pin => pin.id === messageId)`.
The module-level `pinnedMessages` list is passed explicitly. -/
def isPinned (messageId : String) (pinnedMessages : List PinnedMessage) : Bool :=
  pinnedMessages.any (fun pin => pin.id == messageId)

/-- The pure list transformation of `togglePin(message)`: when the id is
pinned, `pinnedMessages.filter(pin => pin.id !== message.id)`; otherwise
`pinnedMessages.push({...})` with the current timestamp `now`
(`Date.now()` passed explicitly). -/
def togglePin (message : Message) (now : Nat) (pinnedMessages : List PinnedMessage) :
    List PinnedMessage :=
  if isPinned message.id pinnedMessages then
    pinnedMessages.filter (fun pin => pin.id != message.id)
  else
    pinnedMessages ++ [{ id := message.id
                         channelId := message.channel_id
                         content := message.content
                         author := message.author_username
                         timestamp := now }]

/-- Combined state: the in-memory `pinnedMessages` list and the value
persisted by `DataStore.set` under the key `ClientPinnedMessages`. -/
structure PinsState where
  pinnedMessages : List PinnedMessage
  stored : List PinnedMessage
deriving DecidableEq, Repr

/-- The key used by `loadPinnedMessages` / `savePinnedMessages`. -/
def PINNED_KEY : String := "ClientPinnedMessages"

/-- `savePinnedMessages(pins)`: `DataStore.set(PINNED_KEY, pins)`. -/
def savePinnedMessages (pins : List PinnedMessage) (s : PinsState) : PinsState :=
  { s with stored := pins }

/-- Full effect of `togglePin(message)`: update the in-memory list and
then `savePinnedMessages(pinnedMessages)` in both branches. -/
def togglePinS (message : Message) (now : Nat) (s : PinsState) : PinsState :=
  let newPins := togglePin message now s.pinnedMessages
  savePinnedMessages newPins { s with pinnedMessages := newPins }

/-- The removal performed by the `Unpin` button of `ClientPinsTab`:
`pinnedMessages = pinnedMessages.filter(p => p.id !== pin.id);
savePinnedMessages(pinnedMessages)`. -/
def unpinS (msgId : String) (s : PinsState) : PinsState :=
  let newPins := s.pinnedMessages.filter (fun p => p.id != msgId)
  savePinnedMessages newPins { s with pinnedMessages := newPins }

/-- The operations that mutate the pinned list: the context-menu toggle
and the UI `Unpin` button. -/
inductive PinOp where
  | toggle (m : Message) (now : Nat)
  | unpin (msgId : String)
deriving DecidableEq, Repr

def applyPinOp (s : PinsState) : PinOp → PinsState
  | .toggle m now => togglePinS m now s
  | .unpin i => unpinS i s

/-- The empty starting state. -/
def pinsInit : PinsState := ⟨[], []⟩

def runPinOps (ops : List PinOp) : PinsState :=
  ops.foldl applyPinOp pinsInit

/-- Applying a sequence of context-menu toggles to a pinned list. -/
def applyToggles (seq : List (Message × Nat)) (pins : List PinnedMessage) :
    List PinnedMessage :=
  seq.foldl (fun ps mn => togglePin mn.1 mn.2 ps) pins

/-- Message used by the spec's pin/unpin scenario. -/
def msgScenario : Message :=
  { id := "5", channel_id := "10", content := "hi", author_username := "bob" }

end ClientPins

namespace AlwaysConnected

/-- JavaScript truthiness for a nullable string: `null`/`undefined` and
the empty string are falsy. -/
def optTruthy : Option String → Bool
  | none => false
  | some s => s != ""

/-- The mutable fields of the `AlwaysConnected` plugin object, plus the
durable `DataStore` entry under `AlwaysConnected_lastVoiceChannel`
(`none` = absent). -/
structure ACState where
  lastVoiceChannel : Option String
  wasManuallyDisconnected : Bool
  dataStore : Option String
  monitorRunning : Bool
deriving DecidableEq, Repr

/-- The key used by the plugin: `dataStoreKey`. -/
def dataStoreKey : String := "AlwaysConnected_lastVoiceChannel"

/-- Initial plugin state: `lastVoiceChannel: null`,
`wasManuallyDisconnected: false`, no monitor, nothing stored yet. -/
def acInit : ACState := ⟨none, false, none, false⟩

/-- The observable operations on the plugin state. A `tick` carries the
environment observations made during that tick: the value of
`isConnected()` and of `getCurrentVoiceChannelId()` (`none` = null). A
`voiceStateUpdates` event carries the `channelId` of each update
(`none` = null). -/
inductive ACOp where
  | start
  | stop
  | voiceStateUpdates (updates : List (Option String))
  | connectionOpen
  | tick (isConnected : Bool) (current : Option String)
deriving DecidableEq, Repr

/-- One step of the plugin. `start` restores `lastVoiceChannel` from the
data store (`?? null`) and arms the monitor interval; `stop` clears the
interval; the `VOICE_STATE_UPDATES` flux handler sets
`wasManuallyDisconnected` when some update has `channelId === null`;
`CONNECTION_OPEN` clears it; a monitor tick follows the interval
callback in `start`: when disconnected and not manually disconnected it
calls `autoRejoin()` (which mutates none of these fields), and when
connected it clears the manual flag and, if the current channel id is
truthy, records it in `lastVoiceChannel` and `DataStore.set`s it. -/
def acStep (s : ACState) : ACOp → ACState
  | .start => { s with lastVoiceChannel := s.dataStore, monitorRunning := true }
  | .stop => { s with monitorRunning := false }
  | .voiceStateUpdates updates =>
      if updates.contains none then { s with wasManuallyDisconnected := true } else s
  | .connectionOpen => { s with wasManuallyDisconnected := false }
  | .tick isConnected current =>
      if !isConnected && !s.wasManuallyDisconnected then
        s
      else if isConnected then
        let s1 := { s with wasManuallyDisconnected := false }
        if optTruthy current then
          { s1 with lastVoiceChannel := current, dataStore := current }
        else s1
      else s

/-- Whether a monitor tick enters the branch that calls `autoRejoin()`:
`!this.isConnected() && !this.wasManuallyDisconnected`. -/
def tickInvokesRejoin (s : ACState) (isConnected : Bool) : Bool :=
  !isConnected && !s.wasManuallyDisconnected

/-- Whether an operation calls `autoRejoin()` from the monitor-tick
callback (only ticks do; the flux handlers and `stop` never do). -/
def opInvokesRejoin (s : ACState) : ACOp → Bool
  | .tick isConnected _ => tickInvokesRejoin s isConnected
  | _ => false

/-- Run a list of operations, recording for each one whether it invoked
`autoRejoin` from the monitor tick. -/
def runRejoins : ACState → List ACOp → List Bool
  | _, [] => []
  | s, op :: rest => opInvokesRejoin s op :: runRejoins (acStep s op) rest

/-- Operations that reset `wasManuallyDisconnected` to `false`: the
`CONNECTION_OPEN` flux handler, and a monitor tick that observes
`isConnected() === true`. -/
def clearsFlag : ACOp → Bool
  | .connectionOpen => true
  | .tick isConnected _ => isConnected
  | _ => false

/-- The channel id `autoRejoin` targets:
`(this.lastVoiceChannel ?? null) || this.getCurrentVoiceChannelId()`. -/
def rejoinTarget (lastVoiceChannel current : Option String) : Option String :=
  if optTruthy lastVoiceChannel then lastVoiceChannel else current

/-- Number of synchronous `window.VoiceService.join` invocations made by
one call to `autoRejoin()`: zero when the target channel id is falsy
(`if (!channelId) return`) or the host `VoiceService.join` function is
absent, otherwise exactly the one call in `attemptRejoin(0)` (later
attempts run in separate `setTimeout` callbacks). -/
def autoRejoinJoins (s : ACState) (current : Option String) (voiceServiceOk : Bool) : Nat :=
  if optTruthy (rejoinTarget s.lastVoiceChannel current) && voiceServiceOk then 1 else 0

/-- Number of synchronous `window.VoiceService.join` invocations during
one monitor-tick callback. -/
def tickJoinCount (s : ACState) (isConnected : Bool) (current : Option String)
    (voiceServiceOk : Bool) : Nat :=
  if tickInvokesRejoin s isConnected then autoRejoinJoins s current voiceServiceOk else 0

/-- The cap applied to retry delays: `const maxDelay = 60000`. -/
def maxDelay : Nat := 60000

/-- The delays scheduled by the `attemptRejoin` retry loop, given the
sequence of `isConnected()` observations made when each scheduled
timeout fires: each attempt schedules
`Math.min(baseDelay * (attempt + 1), maxDelay)`, and the loop recurses
with `attempt + 1` exactly when the observation is still disconnected. -/
def rejoinDelays (baseDelay : Nat) : Nat → List Bool → List Nat
  | _, [] => []
  | attempt, obs :: rest =>
      min (baseDelay * (attempt + 1)) maxDelay ::
        (if obs then [] else rejoinDelays baseDelay (attempt + 1) rest)

/-- The option definition object passed to `definePluginSettings` for
`autoRejoinDelay` (only the field the plugin reads is modelled). -/
structure SettingDef where
  default : Nat
deriving DecidableEq, Repr

/-- The settings object: the `autoRejoinDelay` option definition
(whose `default` is `30000`) together with the user-configured value
held in the settings store. -/
structure PluginSettings where
  autoRejoinDelayDef : SettingDef
  store_autoRejoinDelay : Nat
deriving DecidableEq, Repr

/-- The settings of the plugin when the user has configured the
`autoRejoinDelay` option to `configured`: the option's `default` is the
literal `30000` from the source. -/
def acSettings (configured : Nat) : PluginSettings :=
  { autoRejoinDelayDef := { default := 30000 }, store_autoRejoinDelay := configured }

/-- The base delay `autoRejoin` actually uses:
`const baseDelay = settings.autoRejoinDelay.default`. -/
def baseDelayUsed (settings : PluginSettings) : Nat :=
  settings.autoRejoinDelayDef.default

end AlwaysConnected

namespace NativeM

/-- A single entry of the `updates` array dispatched by
`rejoinChannel`. -/
structure VoiceStateUpdate where
  channelId : Option String
  guildId : Option String
  selfMute : Bool
  selfDeaf : Bool
deriving DecidableEq, Repr

/-- The event object handed to `FluxDispatcher.dispatch`. -/
structure FluxDispatch where
  type : String
  updates : List VoiceStateUpdate
deriving DecidableEq, Repr

/-- `rejoinChannel(channelId)`: dispatches a synthetic
`VOICE_STATE_UPDATES` event with one update carrying the channel id,
`guildId: null`, `selfMute: false`, `selfDeaf: false`. -/
def rejoinChannel (channelId : String) : FluxDispatch :=
  { type := "VOICE_STATE_UPDATES"
    updates := [{ channelId := some channelId, guildId := none
                  selfMute := false, selfDeaf := false }] }

/-- What the native monitor can observe in one cycle: the `channelId`
parsed from the state file (`none` when the read or parse fails or the
field is absent), the truthiness of `VoiceConnectionStore?.getConnection()`,
and whether `tasklist` output contains `discord.exe`. -/
structure NativeEnv where
  fileChannelId : Option String
  hasVoiceConnection : Bool
  tasklistHasDiscord : Bool
deriving DecidableEq, Repr

/-- The interval of the native monitor: `setInterval(..., 5000)`. -/
def nativeMonitorIntervalMs : Nat := 5000

/-- One cycle of the `startNativeMonitor` interval callback: load the
stored channel id (`loadChannelId()`); if it is falsy, do nothing;
otherwise, if `VoiceConnectionStore?.getConnection()` is falsy, call
`rejoinChannel(storedChannelId)`, which fire-and-forget dispatches a
synthetic event; nothing is read back. The result is the dispatched
event, if any. -/
def nativeMonitorTick (env : NativeEnv) : Option FluxDispatch :=
  match env.fileChannelId with
  | none => none
  | some storedChannelId =>
      if storedChannelId == "" then none
      else if env.hasVoiceConnection then none
      else some (rejoinChannel storedChannelId)

end NativeM

namespace ClientPins

lemma any_filter_ne (pins : List PinnedMessage) (a : String) :
    ((pins.filter (fun p => p.id != a)).any (fun p => p.id == a)) = false := by
  induction pins with
  | nil => rfl
  | cons p rest ih =>
      by_cases h : p.id = a
      · simp [List.filter_cons, h, ih]
      · simp [List.filter_cons, h, ih]

lemma any_filter_other (pins : List PinnedMessage) (a b : String) (hab : ¬a = b) :
    ((pins.filter (fun p => p.id != a)).any (fun p => p.id == b)) =
      (pins.any (fun p => p.id == b)) := by
  induction pins with
  | nil => rfl
  | cons p rest ih =>
      by_cases h : p.id = a
      · have hb : ¬p.id = b := by rw [h]; exact hab
        simp [List.filter_cons, h, hb, hab, ih]
      · simp [List.filter_cons, h, ih]

lemma isPinned_togglePin (m : Message) (now : Nat) (pins : List PinnedMessage)
    (mid : String) :
    isPinned mid (togglePin m now pins) =
      if m.id = mid then !(isPinned mid pins) else isPinned mid pins := by
  by_cases hp : isPinned m.id pins
  · rw [togglePin, if_pos hp]
    simp only [isPinned] at hp ⊢
    by_cases he : m.id = mid
    · subst he
      rw [if_pos rfl, any_filter_ne, hp]
      rfl
    · rw [if_neg he, any_filter_other pins m.id mid he]
  · rw [togglePin, if_neg hp]
    by_cases he : m.id = mid
    · subst he
      simp only [isPinned, Bool.not_eq_true] at hp
      simp [isPinned, List.any_append, hp]
    · simp [isPinned, List.any_append, he]

lemma mod_two_beq_succ (n : Nat) : ((n + 1) % 2 == 1) = !(n % 2 == 1) := by
  rcases Nat.mod_two_eq_zero_or_one n with h | h <;> simp [Nat.add_mod, h]

lemma isPinned_applyToggles (seq : List (Message × Nat)) :
    ∀ pins mid,
      isPinned mid (applyToggles seq pins) =
        Bool.xor (isPinned mid pins)
          (seq.countP (fun mn => mn.1.id == mid) % 2 == 1) := by
  induction seq with
  | nil => intro pins mid; simp [applyToggles]
  | cons mn rest ih =>
      intro pins mid
      have h1 : applyToggles (mn :: rest) pins =
          applyToggles rest (togglePin mn.1 mn.2 pins) := rfl
      rw [h1, ih, isPinned_togglePin, List.countP_cons]
      by_cases he : mn.1.id = mid
      · simp only [he, if_pos rfl, beq_self_eq_true, if_true, mod_two_beq_succ]
        cases hb : isPinned mid pins <;>
          cases hc : (rest.countP (fun x => x.1.id == mid) % 2 == 1) <;>
            simp [hb, hc]
      · simp [he]

lemma not_mem_map_id (pins : List PinnedMessage) (a : String)
    (h : isPinned a pins = false) : a ∉ pins.map (fun p => p.id) := by
  intro hmem
  rw [List.mem_map] at hmem
  obtain ⟨p, hp, hpa⟩ := hmem
  have hany : pins.any (fun q => q.id == a) = true :=
    List.any_eq_true.mpr ⟨p, hp, by simp [hpa]⟩
  rw [isPinned, hany] at h
  exact Bool.true_eq_false.mp h

lemma nodup_map_id_filter (pins : List PinnedMessage) (f : PinnedMessage → Bool)
    (h : (pins.map (fun p => p.id)).Nodup) :
    ((pins.filter f).map (fun p => p.id)).Nodup :=
  List.Nodup.sublist (List.Sublist.map _ (List.filter_sublist pins)) h

lemma nodup_applyPinOp (s : PinsState) (op : PinOp)
    (h : (s.pinnedMessages.map (fun p => p.id)).Nodup) :
    (((applyPinOp s op).pinnedMessages.map (fun p => p.id)).Nodup) := by
  cases op with
  | unpin i =>
      exact nodup_map_id_filter _ _ h
  | toggle m now =>
      show ((togglePin m now s.pinnedMessages).map (fun p => p.id)).Nodup
      by_cases hp : isPinned m.id s.pinnedMessages
      · rw [togglePin, if_pos hp]
        exact nodup_map_id_filter _ _ h
      · rw [togglePin, if_neg hp]
        rw [List.map_append]
        rw [List.nodup_append]
        refine ⟨h, List.nodup_singleton _, ?_⟩
        intro x hx hx1
        simp only [List.map_cons, List.map_nil, List.mem_singleton] at hx1
        subst hx1
        exact not_mem_map_id s.pinnedMessages m.id (Bool.not_eq_true _ ▸ hp) hx

end ClientPins

/-- C1: starting from the empty pinned list, after any finite sequence of
`togglePin` calls a message id is pinned (`isPinned` returns `true`) iff
the number of toggles in the sequence whose message carries that id is
odd. -/
theorem claim_togglePin_parity (seq : List (ClientPins.Message × Nat)) (mid : String) :
    ClientPins.isPinned mid (ClientPins.applyToggles seq []) = true ↔
      Odd (seq.countP (fun mn => mn.1.id == mid)) := by
  rw [ClientPins.isPinned_applyToggles]
  simp [ClientPins.isPinned, Nat.odd_iff]

/-- C3: `togglePin` removes every record matching the message id when it
is pinned and appends exactly one record built from the message (with
the current timestamp) otherwise, then persists the whole updated list
under `ClientPinnedMessages`; in particular the spec's scenario holds:
pinning `{id:"5", channelId:"10", content:"hi", author:"bob"}` on an
empty list yields exactly the one record with author `"bob"`, and
toggling id `"5"` again yields the empty list. -/
theorem claim_togglePin_spec (m : ClientPins.Message) (now : Nat)
    (s : ClientPins.PinsState) :
    ((ClientPins.togglePinS m now s).pinnedMessages =
        if ClientPins.isPinned m.id s.pinnedMessages then
          s.pinnedMessages.filter (fun p => p.id != m.id)
        else
          s.pinnedMessages ++
            [{ id := m.id, channelId := m.channel_id, content := m.content,
               author := m.author_username, timestamp := now }]) ∧
    (ClientPins.togglePinS m now s).stored =
      (ClientPins.togglePinS m now s).pinnedMessages ∧
    (ClientPins.togglePinS ClientPins.msgScenario 100 ClientPins.pinsInit).pinnedMessages =
      [{ id := "5", channelId := "10", content := "hi", author := "bob", timestamp := 100 }] ∧
    (ClientPins.togglePinS ClientPins.msgScenario 200
        (ClientPins.togglePinS ClientPins.msgScenario 100 ClientPins.pinsInit)).pinnedMessages =
      [] ∧
    (ClientPins.togglePinS ClientPins.msgScenario 200
        (ClientPins.togglePinS ClientPins.msgScenario 100 ClientPins.pinsInit)).stored = [] :=
  ⟨rfl, rfl, by decide, by decide, by decide⟩

/-- C7: starting from the empty pinned list, every state reachable by
`togglePin` and the UI `Unpin` removal has pairwise-distinct message
ids. -/
theorem claim_pinned_ids_nodup (ops : List ClientPins.PinOp) :
    (((ClientPins.runPinOps ops).pinnedMessages.map (fun p => p.id)).Nodup) := by
  suffices h : ∀ s : ClientPins.PinsState,
      (s.pinnedMessages.map (fun p => p.id)).Nodup →
      (((ops.foldl ClientPins.applyPinOp s).pinnedMessages.map (fun p => p.id)).Nodup) by
    exact h ClientPins.pinsInit (by simp [ClientPins.pinsInit])
  induction ops with
  | nil => intro s hs; exact hs
  | cons op rest ih =>
      intro s hs
      exact ih _ (ClientPins.nodup_applyPinOp s op hs)

namespace AlwaysConnected

lemma flag_preserved (s : ACState) (op : ACOp)
    (hf : s.wasManuallyDisconnected = true) (hc : clearsFlag op = false) :
    (acStep s op).wasManuallyDisconnected = true := by
  cases op with
  | start => exact hf
  | stop => exact hf
  | voiceStateUpdates updates =>
      by_cases h : none ∈ updates <;> simp [acStep, h, hf]
  | connectionOpen => simp [clearsFlag] at hc
  | tick c cur =>
      have hcf : c = false := by simpa [clearsFlag] using hc
      subst hcf
      simp [acStep, hf]

lemma no_rejoin_while_flag (evs : List ACOp) :
    ∀ s : ACState, s.wasManuallyDisconnected = true →
      evs.all (fun op => !clearsFlag op) = true →
      (runRejoins s evs).all (fun b => !b) = true := by
  induction evs with
  | nil => intro s _ _; rfl
  | cons op rest ih =>
      intro s hf hall
      obtain ⟨h1, h2⟩ :
          clearsFlag op = false ∧ rest.all (fun o => !clearsFlag o) = true := by
        simpa [List.all_cons] using hall
      rw [runRejoins, List.all_cons]
      have hop : opInvokesRejoin s op = false := by
        cases op <;> simp [opInvokesRejoin, tickInvokesRejoin, hf]
      rw [hop]
      simpa using ih _ (flag_preserved s op hf h1) h2

lemma rejoinDelays_replicate_false (base : Nat) :
    ∀ n attempt : Nat,
      rejoinDelays base attempt (List.replicate n false) =
        (List.range n).map (fun k => min (base * (attempt + 1 + k)) maxDelay) := by
  intro n
  induction n with
  | zero => intro attempt; rfl
  | succ n ih =>
      intro attempt
      rw [List.replicate_succ, rejoinDelays, if_neg (by simp)]
      rw [ih (attempt + 1), List.range_succ_eq_map, List.map_cons, List.map_map]
      congr 1
      apply List.map_congr_left
      intro k _
      have harg : base * (attempt + 1 + 1 + k) = base * (attempt + 1 + (k + 1)) := by
        ring_nf
      simp [Function.comp, harg]

lemma rejoinDelays_stops (base : Nat) :
    ∀ (k attempt : Nat) (rest : List Bool),
      (rejoinDelays base attempt (List.replicate k false ++ true :: rest)).length =
        k + 1 := by
  intro k
  induction k with
  | zero => intro attempt rest; simp [rejoinDelays]
  | succ k ih =>
      intro attempt rest
      rw [List.replicate_succ, List.cons_append, rejoinDelays, if_neg (by simp)]
      simp [ih (attempt + 1) rest]

end AlwaysConnected

/-- C2 (amended): after a `VOICE_STATE_UPDATES` event in which some update
carries `channelId` null, no subsequent monitor tick invokes `autoRejoin`
as long as neither a `CONNECTION_OPEN` event nor a tick observing
`isConnected() = true` has occurred (both reset
`wasManuallyDisconnected`). -/
theorem claim_manual_suppression_amended (s : AlwaysConnected.ACState)
    (updates : List (Option String)) (evs : List AlwaysConnected.ACOp)
    (hnull : updates.contains none = true)
    (hno : evs.all (fun op => !AlwaysConnected.clearsFlag op) = true) :
    ((AlwaysConnected.runRejoins
        (AlwaysConnected.acStep s (.voiceStateUpdates updates)) evs).all
      (fun b => !b)) = true := by
  apply AlwaysConnected.no_rejoin_while_flag
  · have h : none ∈ updates := by simpa using hnull
    simp [AlwaysConnected.acStep, h]
  · exact hno

/-- Witness for the amended C2: after a null-channel voice update, a
disconnected tick, an empty voice update and a `stop` (none of which
clear the flag) invoke no rejoin. -/
theorem claim_manual_suppression_witness :
    (([none] : List (Option String)).contains none = true) ∧
    ((AlwaysConnected.runRejoins
        (AlwaysConnected.acStep AlwaysConnected.acInit (.voiceStateUpdates [none]))
        [AlwaysConnected.ACOp.tick false (some "c"),
         AlwaysConnected.ACOp.voiceStateUpdates [], AlwaysConnected.ACOp.stop]).all
      (fun b => !b)) = true :=
  ⟨by decide,
   claim_manual_suppression_amended AlwaysConnected.acInit [none]
     [AlwaysConnected.ACOp.tick false (some "c"),
      AlwaysConnected.ACOp.voiceStateUpdates [], AlwaysConnected.ACOp.stop]
     (by decide) (by decide)⟩

/-- Counterexample to C2 as stated: after a null-channel voice update and
with no `CONNECTION_OPEN` event anywhere in the trace, a tick that
observes `isConnected() = true` clears `wasManuallyDisconnected`, so the
next disconnected tick does invoke `autoRejoin` (the third entry of the
run is `true`). -/
theorem claim_manual_suppression_counterexample :
    AlwaysConnected.runRejoins AlwaysConnected.acInit
      [AlwaysConnected.ACOp.voiceStateUpdates [none],
       AlwaysConnected.ACOp.tick true none,
       AlwaysConnected.ACOp.tick false none] = [false, false, true] := by
  decide

/-- C4: for base delay 30000 ms the retry loop schedules
`min(30000 * (k+1), 60000)` ms before retry attempt `k+1` — concretely
30000, 60000, 60000, 60000 over the first 4 attempts — the schedule is
defined for every number of failed observations (no maximum attempt
count), and the loop stops recursing exactly when an observation reports
`isConnected()` true. -/
theorem claim_backoff_schedule :
    AlwaysConnected.rejoinDelays 30000 0 (List.replicate 4 false) =
      [30000, 60000, 60000, 60000] ∧
    (∀ n, AlwaysConnected.rejoinDelays 30000 0 (List.replicate n false) =
        (List.range n).map (fun k => min (30000 * (k + 1)) 60000)) ∧
    (∀ (k : Nat) (rest : List Bool),
        (AlwaysConnected.rejoinDelays 30000 0
            (List.replicate k false ++ true :: rest)).length = k + 1) := by
  refine ⟨by decide, ?_, fun k rest => AlwaysConnected.rejoinDelays_stops 30000 k 0 rest⟩
  intro n
  rw [AlwaysConnected.rejoinDelays_replicate_false 30000 n 0]
  apply List.map_congr_left
  intro k _
  have h1 : 0 + 1 + k = k + 1 := by omega
  rw [h1]
  simp [AlwaysConnected.maxDelay]

/-- C5 (code evaluation at the failing input): with the user-configured
`autoRejoinDelay` set to 10000, `autoRejoin` still uses
`settings.autoRejoinDelay.default`, i.e. 30000, not the configured
store value, so the first scheduled delay is 30000 rather than 10000:
the configured setting does not influence the retry schedule. -/
theorem claim_baseDelay_ignores_setting :
    AlwaysConnected.baseDelayUsed (AlwaysConnected.acSettings 10000) = 30000 ∧
    ¬AlwaysConnected.baseDelayUsed (AlwaysConnected.acSettings 10000) =
        (AlwaysConnected.acSettings 10000).store_autoRejoinDelay ∧
    AlwaysConnected.rejoinDelays
        (AlwaysConnected.baseDelayUsed (AlwaysConnected.acSettings 10000)) 0 [false] =
      [30000] := by
  refine ⟨rfl, by decide, by decide⟩

/-- Counterexample to C6 as stated: in a state with
`wasManuallyDisconnected = false` but no known channel
(`lastVoiceChannel` null and `getCurrentVoiceChannelId()` null), a
disconnected tick performs zero `VoiceService.join` calls, not exactly
one (`autoRejoin` returns early on a falsy channel id). -/
theorem claim_tick_join_counterexample :
    AlwaysConnected.acInit.wasManuallyDisconnected = false ∧
    ¬AlwaysConnected.tickJoinCount AlwaysConnected.acInit false none true = 1 := by
  decide

/-- C6 (amended): given `isConnected() = false` and
`wasManuallyDisconnected = false`, a single monitor tick performs at
most one synchronous `VoiceService.join` call, and exactly one precisely
when a truthy target channel id is available and the host
`VoiceService.join` function is present. -/
theorem claim_tick_join_amended (s : AlwaysConnected.ACState)
    (current : Option String) (voiceServiceOk : Bool)
    (h : s.wasManuallyDisconnected = false) :
    AlwaysConnected.tickJoinCount s false current voiceServiceOk =
      (if AlwaysConnected.optTruthy
            (AlwaysConnected.rejoinTarget s.lastVoiceChannel current) &&
          voiceServiceOk then 1 else 0) ∧
    AlwaysConnected.tickJoinCount s false current voiceServiceOk ≤ 1 := by
  constructor
  · simp [AlwaysConnected.tickJoinCount, AlwaysConnected.tickInvokesRejoin,
      AlwaysConnected.autoRejoinJoins, h]
  · simp only [AlwaysConnected.tickJoinCount, AlwaysConnected.tickInvokesRejoin,
      AlwaysConnected.autoRejoinJoins, h]
    split_ifs <;> omega

/-- Witness for the amended C6: with `lastVoiceChannel = "c"`, a
disconnected tick in a non-manually-disconnected state performs exactly
one join call. -/
theorem claim_tick_join_witness :
    ({ lastVoiceChannel := some "c", wasManuallyDisconnected := false,
       dataStore := none, monitorRunning := true } :
        AlwaysConnected.ACState).wasManuallyDisconnected = false ∧
    (AlwaysConnected.tickJoinCount
        { lastVoiceChannel := some "c", wasManuallyDisconnected := false,
          dataStore := none, monitorRunning := true } false none true =
      (if AlwaysConnected.optTruthy
            (AlwaysConnected.rejoinTarget (some "c") none) && true then 1 else 0) ∧
    AlwaysConnected.tickJoinCount
        { lastVoiceChannel := some "c", wasManuallyDisconnected := false,
          dataStore := none, monitorRunning := true } false none true ≤ 1) :=
  ⟨rfl, claim_tick_join_amended _ none true rfl⟩

/-- C10: the durable `AlwaysConnected_lastVoiceChannel` entry is written
only by a monitor tick that observed `isConnected() = true` together
with a truthy current channel id, and then it is written to exactly that
non-null id; every other operation (`start`, `stop`, both flux handlers,
a disconnected or channel-less tick) leaves the stored entry unchanged,
so a stored id survives manual disconnects and plugin stop. -/
theorem claim_dataStore_frame (s : AlwaysConnected.ACState)
    (op : AlwaysConnected.ACOp) :
    (AlwaysConnected.acStep s op).dataStore = s.dataStore ∨
    ∃ c, op = AlwaysConnected.ACOp.tick true (some c) ∧ ¬c = "" ∧
      (AlwaysConnected.acStep s op).dataStore = some c := by
  cases op with
  | start => exact Or.inl rfl
  | stop => exact Or.inl rfl
  | voiceStateUpdates updates =>
      left
      by_cases h : none ∈ updates <;> simp [AlwaysConnected.acStep, h]
  | connectionOpen => exact Or.inl rfl
  | tick c cur =>
      cases c with
      | false =>
          left
          simp [AlwaysConnected.acStep]
      | true =>
          by_cases ht : AlwaysConnected.optTruthy cur
          · cases cur with
            | none => simp [AlwaysConnected.optTruthy] at ht
            | some ch =>
                right
                refine ⟨ch, rfl, ?_, ?_⟩
                · simpa [AlwaysConnected.optTruthy] using ht
                · simp [AlwaysConnected.acStep, ht]
          · left
            simp [AlwaysConnected.acStep, ht]

/-- C8: the native monitor fires every 5000 ms; a cycle with no stored
channel id (or an empty one) does nothing; with a stored id and no live
connection it dispatches exactly one synthetic `VOICE_STATE_UPDATES`
event carrying the stored id (guild null, unmuted, undeafened) and
nothing otherwise — the dispatch result is never consumed
(fire-and-forget: `nativeMonitorTick` returns only the outgoing event). -/
theorem claim_native_tick_spec :
    NativeM.nativeMonitorIntervalMs = 5000 ∧
    (∀ conn tl, NativeM.nativeMonitorTick ⟨none, conn, tl⟩ = none) ∧
    (∀ cid conn tl,
        NativeM.nativeMonitorTick ⟨some cid, conn, tl⟩ =
          if cid == "" then none
          else if conn then none
          else some { type := "VOICE_STATE_UPDATES"
                      updates := [{ channelId := some cid, guildId := none,
                                    selfMute := false, selfDeaf := false }] }) :=
  ⟨rfl, fun _ _ => rfl, fun _ _ _ => rfl⟩

/-- C9 (code evaluation at the failing input): the native monitor cycle
never consults the process list — its outcome is identical whatever
`tasklist` reports — and in particular it dispatches a rejoin event even
when `discord.exe` is not among the running processes, contradicting the
claim that reconnect behaviour is gated on the host being detected as
running. -/
theorem claim_native_ignores_process_list :
    (∀ (fc : Option String) (conn t1 t2 : Bool),
        NativeM.nativeMonitorTick ⟨fc, conn, t1⟩ =
          NativeM.nativeMonitorTick ⟨fc, conn, t2⟩) ∧
    NativeM.nativeMonitorTick
        { fileChannelId := some "123", hasVoiceConnection := false,
          tasklistHasDiscord := false } =
      some (NativeM.rejoinChannel "123") := by
  refine ⟨?_, by decide⟩
  intro fc conn t1 t2
  cases fc <;> rfl
